import Mathlib

/-!
Verification development for the LOKE `@loke/http-client` library.

The definitions below are a shallow embedding of the fetch-based
`HTTPClient` implementation in `src/src/index.ts` (constructor, `request`,
`parseResponseBody`, `recordMetrics`, the error module in the same file)
and of the URI-template expander and memoizer in `src/src/utils/index.ts`.
JavaScript runtime values are modelled by the inductive `JSValue`,
JavaScript `Error` objects by `JSError`, and the single suspension point
(the `fetch` call) is a function parameter, so that one logical
`request()` call is a pure function of its transport outcome.
-/

/-- Model of a JavaScript/JSON runtime value.  `undefined` and `null` are
distinct, as in JavaScript.  Numeric values are restricted to integers,
which covers every payload this development evaluates. -/
inductive JSValue where
  | undefined
  | null
  | bool (b : Bool)
  | num (n : Int)
  | str (s : String)
  | arr (elems : List JSValue)
  | obj (fields : List (String × JSValue))

/-- JavaScript truthiness: `undefined`, `null`, `false`, `0` and the empty
string are falsy; every object and array is truthy. -/
def jsTruthy : JSValue → Bool
  | .undefined => false
  | .null => false
  | .bool b => b
  | .num n => !(n == 0)
  | .str s => !(s == "")
  | .arr _ => true
  | .obj _ => true

/-- `value !== undefined && value !== null`, the `isDefined` helper of
`src/src/utils/index.ts`. -/
def isDefinedJS : JSValue → Bool
  | .undefined => false
  | .null => false
  | _ => true

/-- Strict equality with the empty string (`value === ""`). -/
def isEmptyStringJS : JSValue → Bool
  | .str s => s == ""
  | _ => false

/-- Number-to-string coercion for the integer numerics of this model. -/
def jsNumToString (n : Int) : String :=
  if n < 0 then "-" ++ Nat.repr n.natAbs else Nat.repr n.natAbs

/-- Depth bound used to drive recursion over nested `JSValue`s.  The
values this client serializes or coerces are payload-sized JSON documents;
a nesting depth of 64 is ample for all of them. -/
def jsDepthBound : Nat := 64

/-- JavaScript string coercion `String(v)`, depth-bounded by `fuel`
(seeded with `jsDepthBound`; only nested arrays consume fuel).  Arrays
join their coerced elements with commas; plain objects coerce to the
literal text `[object Object]`. -/
def jsStringCoerceFuel : Nat → JSValue → String
  | 0, _ => ""
  | _ + 1, .undefined => "undefined"
  | _ + 1, .null => "null"
  | _ + 1, .bool b => if b then "true" else "false"
  | _ + 1, .num n => jsNumToString n
  | _ + 1, .str s => s
  | fuel + 1, .arr elems =>
      String.intercalate "," (elems.map (fun e => jsStringCoerceFuel fuel e))
  | _ + 1, .obj _ => "[object Object]"

/-- JavaScript string coercion `String(v)`. -/
def jsStringCoerce (v : JSValue) : String :=
  jsStringCoerceFuel jsDepthBound v

/-- One JSON string escape for `JSON.stringify`. -/
def jsonEscapeChar (c : Char) : String :=
  if c = Char.ofNat 34 then "\\\""
  else if c = Char.ofNat 92 then "\\\\"
  else if c = Char.ofNat 10 then "\\n"
  else if c = Char.ofNat 13 then "\\r"
  else if c = Char.ofNat 9 then "\\t"
  else String.singleton c

/-- JSON string literal serialization. -/
def jsonQuote (s : String) : String :=
  "\"" ++ String.join (s.toList.map jsonEscapeChar) ++ "\""

/-- Test for the `undefined` value. -/
def isUndefinedJS : JSValue → Bool
  | .undefined => true
  | _ => false

/-- Depth-bounded core of `JSON.stringify` (fuel seeded with
`jsDepthBound`; only nested arrays and objects consume fuel).
`undefined` inside an array serializes as `null`; `undefined`-valued
object fields are dropped, as in JavaScript. -/
def jsonStringifyFuel : Nat → JSValue → String
  | 0, _ => ""
  | _ + 1, .undefined => "null"
  | _ + 1, .null => "null"
  | _ + 1, .bool b => if b then "true" else "false"
  | _ + 1, .num n => jsNumToString n
  | _ + 1, .str s => jsonQuote s
  | fuel + 1, .arr elems =>
      "[" ++ String.intercalate "," (elems.map (fun e => jsonStringifyFuel fuel e)) ++ "]"
  | fuel + 1, .obj fields =>
      "\x7b" ++
        String.intercalate ","
          ((fields.filter (fun f => !(isUndefinedJS f.2))).map
            (fun f => jsonQuote f.1 ++ ":" ++ jsonStringifyFuel fuel f.2)) ++
      "\x7d"

/-- `JSON.stringify(v)` for a defined value.  The `request` code only ever
invokes it on truthy values (`body ? JSON.stringify(body) : undefined`). -/
def jsonStringify (v : JSValue) : String :=
  jsonStringifyFuel jsDepthBound v

/-- JSON whitespace skipping. -/
def skipWs : List Char → List Char
  | c :: rest =>
      if c = ' ' || c = Char.ofNat 9 || c = Char.ofNat 10 || c = Char.ofNat 13 then
        skipWs rest
      else c :: rest
  | [] => []

/-- Strip an expected literal character sequence. -/
def stripChars : List Char → List Char → Option (List Char)
  | [], cs => some cs
  | p :: ps, c :: cs => if c = p then stripChars ps cs else none
  | _ :: _, [] => none

/-- Hexadecimal digit test. -/
def isHexDigit (c : Char) : Bool :=
  c.isDigit || (c.toNat ≥ 65 && c.toNat ≤ 70) || (c.toNat ≥ 97 && c.toNat ≤ 102)

/-- Hexadecimal digit value. -/
def hexVal (c : Char) : Nat :=
  if c.isDigit then c.toNat - 48
  else if c.toNat ≥ 97 then c.toNat - 87
  else c.toNat - 55

/-- Parse the remainder of a JSON string literal (opening quote already
consumed), returning the decoded text and the rest of the input. -/
def jparseString : Nat → List Char → Option (String × List Char)
  | 0, _ => none
  | _ + 1, [] => none
  | fuel + 1, c :: rest =>
      if c = Char.ofNat 34 then some ("", rest)
      else if c = Char.ofNat 92 then
        match rest with
        | [] => none
        | e :: rest2 =>
            let decoded : Option (Char × List Char) :=
              if e = Char.ofNat 34 then some (Char.ofNat 34, rest2)
              else if e = Char.ofNat 92 then some (Char.ofNat 92, rest2)
              else if e = '/' then some ('/', rest2)
              else if e = 'b' then some (Char.ofNat 8, rest2)
              else if e = 'f' then some (Char.ofNat 12, rest2)
              else if e = 'n' then some (Char.ofNat 10, rest2)
              else if e = 'r' then some (Char.ofNat 13, rest2)
              else if e = 't' then some (Char.ofNat 9, rest2)
              else if e = 'u' then
                match rest2 with
                | h1 :: h2 :: h3 :: h4 :: rest3 =>
                    if isHexDigit h1 && isHexDigit h2 && isHexDigit h3 && isHexDigit h4 then
                      some (Char.ofNat
                        (hexVal h1 * 4096 + hexVal h2 * 256 + hexVal h3 * 16 + hexVal h4), rest3)
                    else none
                | _ => none
              else none
            match decoded with
            | some (d, rest3) =>
                match jparseString fuel rest3 with
                | some (s, rest4) => some (String.singleton d ++ s, rest4)
                | none => none
            | none => none
      else
        match jparseString fuel rest with
        | some (s, rest2) => some (String.singleton c ++ s, rest2)
        | none => none

/-- Parse a nonempty run of decimal digits. -/
def jparseDigits : List Char → Option (Nat × List Char)
  | c :: rest =>
      if c.isDigit then
        let run := (c :: rest).takeWhile Char.isDigit
        let value := run.foldl (fun acc d => acc * 10 + (d.toNat - 48)) 0
        some (value, (c :: rest).drop run.length)
      else none
  | [] => none

mutual

/-- Fuel-bounded recursive-descent model of `JSON.parse` on a character
list: returns the parsed value and the remaining input, or `none` when the
input is not valid JSON.  Numeric literals are restricted to integers
(a trailing fraction or exponent makes the parse fail); none of the
payloads considered in this development contain non-integer numbers. -/
def jparseVal : Nat → List Char → Option (JSValue × List Char)
  | 0, _ => none
  | fuel + 1, cs =>
      match skipWs cs with
      | [] => none
      | c :: rest =>
          if c = Char.ofNat 34 then
            match jparseString fuel rest with
            | some (s, rest2) => some (.str s, rest2)
            | none => none
          else if c = 'n' then
            match stripChars ['u', 'l', 'l'] rest with
            | some rest2 => some (.null, rest2)
            | none => none
          else if c = 't' then
            match stripChars ['r', 'u', 'e'] rest with
            | some rest2 => some (.bool true, rest2)
            | none => none
          else if c = 'f' then
            match stripChars ['a', 'l', 's', 'e'] rest with
            | some rest2 => some (.bool false, rest2)
            | none => none
          else if c = '-' then
            match jparseDigits rest with
            | some (n, rest2) => some (.num (-(n : Int)), rest2)
            | none => none
          else if c.isDigit then
            match jparseDigits (c :: rest) with
            | some (n, rest2) => some (.num (n : Int), rest2)
            | none => none
          else if c = Char.ofNat 123 then
            match skipWs rest with
            | d :: rest2 =>
                if d = Char.ofNat 125 then some (.obj [], rest2)
                else
                  match jparseMembers fuel (d :: rest2) with
                  | some (fields, rest3) => some (.obj fields, rest3)
                  | none => none
            | [] => none
          else if c = '[' then
            match skipWs rest with
            | d :: rest2 =>
                if d = ']' then some (.arr [], rest2)
                else
                  match jparseElems fuel (d :: rest2) with
                  | some (elems, rest3) => some (.arr elems, rest3)
                  | none => none
            | [] => none
          else none

/-- Parse one or more `"key": value` members followed by `}`. -/
def jparseMembers : Nat → List Char → Option (List (String × JSValue) × List Char)
  | 0, _ => none
  | fuel + 1, cs =>
      match skipWs cs with
      | c :: rest =>
          if c = Char.ofNat 34 then
            match jparseString fuel rest with
            | some (key, rest2) =>
                match skipWs rest2 with
                | d :: rest3 =>
                    if d = ':' then
                      match jparseVal fuel rest3 with
                      | some (v, rest4) =>
                          match skipWs rest4 with
                          | e :: rest5 =>
                              if e = ',' then
                                match jparseMembers fuel rest5 with
                                | some (fields, rest6) => some ((key, v) :: fields, rest6)
                                | none => none
                              else if e = Char.ofNat 125 then
                                some ([(key, v)], rest5)
                              else none
                          | [] => none
                      | none => none
                    else none
                | [] => none
            | none => none
          else none
      | [] => none

/-- Parse one or more array elements followed by `]`. -/
def jparseElems : Nat → List Char → Option (List JSValue × List Char)
  | 0, _ => none
  | fuel + 1, cs =>
      match jparseVal fuel cs with
      | some (v, rest) =>
          match skipWs rest with
          | e :: rest2 =>
              if e = ',' then
                match jparseElems fuel rest2 with
                | some (elems, rest3) => some (v :: elems, rest3)
                | none => none
              else if e = ']' then some ([v], rest2)
              else none
          | [] => none
      | none => none

end

/-- Model of `JSON.parse`: `some` parsed value on valid JSON, `none` when
`JSON.parse` would throw a `SyntaxError`. -/
def jsonParse (s : String) : Option JSValue :=
  match jparseVal (2 * s.length + 8) s.toList with
  | some (v, rest) => if skipWs rest = [] then some v else none
  | none => none

/-- UTF-8 byte sequence of a character, used for percent-encoding. -/
def utf8Bytes (c : Char) : List Nat :=
  let n := c.toNat
  if n < 128 then [n]
  else if n < 2048 then [192 + n / 64, 128 + n % 64]
  else if n < 65536 then [224 + n / 4096, 128 + (n / 64) % 64, 128 + n % 64]
  else [240 + n / 262144, 128 + (n / 4096) % 64, 128 + (n / 64) % 64, 128 + n % 64]

/-- Uppercase hexadecimal digit. -/
def hexDigitUpper (n : Nat) : Char :=
  if n < 10 then Char.ofNat (48 + n) else Char.ofNat (55 + n)

/-- Percent-encode one byte as `%XX` with uppercase hex. -/
def pctEncodeByte (b : Nat) : String :=
  "%" ++ String.singleton (hexDigitUpper (b / 16)) ++ String.singleton (hexDigitUpper (b % 16))

/-- Characters left intact by `encodeURIComponent` after the source also
re-escapes `!`, `'`, `(`, `)` and `*`: exactly RFC 3986 unreserved. -/
def isUnreservedChar (c : Char) : Bool :=
  c.isAlphanum || c = '-' || c = '_' || c = '.' || c = '~'

/-- The `encodeUnreserved` helper of `src/src/utils/index.ts`:
`encodeURIComponent` followed by percent-escaping `[!'()*]`. -/
def encodeUnreserved (s : String) : String :=
  String.join (s.toList.map (fun c =>
    if isUnreservedChar c then String.singleton c
    else String.join ((utf8Bytes c).map pctEncodeByte)))

/-- Characters `encodeURI` leaves intact (unreserved plus reserved plus
`#`); square brackets are excluded here and handled by the `%5B`/`%5D`
replacement in `encodeReserved`. -/
def isEncodeURISafe (c : Char) : Bool :=
  c.isAlphanum ||
    [Char.ofNat 45, Char.ofNat 95, Char.ofNat 46, Char.ofNat 33, Char.ofNat 126,
     Char.ofNat 42, Char.ofNat 39, Char.ofNat 40, Char.ofNat 41, Char.ofNat 59,
     Char.ofNat 47, Char.ofNat 63, Char.ofNat 58, Char.ofNat 64, Char.ofNat 38,
     Char.ofNat 61, Char.ofNat 43, Char.ofNat 36, Char.ofNat 44, Char.ofNat 35].contains c

/-- `encodeURI` on a segment, with the source's trailing
`replace(/%5B/g, "[").replace(/%5D/g, "]")` folded in: square brackets
stay literal. -/
def encodeURIKeepBrackets (seg : List Char) : String :=
  String.join (seg.map (fun c =>
    if isEncodeURISafe c || c = '[' || c = ']' then String.singleton c
    else String.join ((utf8Bytes c).map pctEncodeByte)))

/-- Split a character list at complete `%XX` percent triplets, as the
source's `split(/(%[0-9A-Fa-f]{2})/g)`: each triplet becomes its own
segment flagged `true`; the surrounding chunks are flagged `false`. -/
def splitPctTriplets : List Char → List (Bool × List Char)
  | [] => []
  | '%' :: h1 :: h2 :: rest =>
      if isHexDigit h1 && isHexDigit h2 then
        (true, ['%', h1, h2]) :: splitPctTriplets rest
      else
        match splitPctTriplets (h1 :: h2 :: rest) with
        | (false, seg) :: segs => (false, '%' :: seg) :: segs
        | segs => (false, ['%']) :: segs
  | c :: rest =>
      match splitPctTriplets rest with
      | (false, seg) :: segs => (false, c :: seg) :: segs
      | segs => (false, [c]) :: segs

/-- Does a segment contain `%` followed by a hex digit
(the source's `/%[0-9A-Fa-f]/.test(part)`)? -/
def hasPctHex : List Char → Bool
  | [] => false
  | '%' :: rest =>
      match rest with
      | h :: _ => if isHexDigit h then true else hasPctHex rest
      | [] => false
  | _ :: rest => hasPctHex rest

/-- The `encodeReserved` helper of `src/src/utils/index.ts`: split at
complete `%XX` triplets, keep any segment still containing `%` plus a hex
digit verbatim, `encodeURI` the rest and restore square brackets. -/
def encodeReserved (s : String) : String :=
  String.join ((splitPctTriplets s.toList).map (fun seg =>
    if hasPctHex seg.2 then String.mk seg.2 else encodeURIKeepBrackets seg.2))

/-- Parameter mapping handed to `expand` (a JavaScript
`Record<string, unknown>`); first binding wins on duplicate keys. -/
def Context : Type := List (String × JSValue)

/-- Property lookup: an absent key reads as `undefined`. -/
def ctxGet (context : Context) (key : String) : JSValue :=
  match context.find? (fun b => b.1 == key) with
  | some b => b.2
  | none => .undefined

/-- The operator characters recognised by `parseTemplate`. -/
def templateOperators : List Char := ['+', '#', '.', '/', ';', '?', '&']

/-- `[";", "&", "?"].includes(operator)`. -/
def isKeyOperator (op : String) : Bool :=
  op = ";" || op = "&" || op = "?"

/-- The `encodeValue` helper: reserved expansion for `+` and `#`,
full percent-encoding otherwise, with an optional `key=` prefix. -/
def encodeValue (op : String) (value : String) (key : Option String) : String :=
  let encodedValue := if op = "+" || op = "#" then encodeReserved value else encodeUnreserved value
  match key with
  | some k => encodeUnreserved k ++ "=" ++ encodedValue
  | none => encodedValue

/-- `parseInt(m, 10)` for the digit-only prefix modifiers produced by the
variable-spec pattern. -/
def parseIntDigits (m : String) : Nat :=
  (m.toNat?).getD 0

/-- JavaScript `substring(0, n)` (code-point prefix in this model). -/
def strTake (s : String) (n : Nat) : String :=
  String.mk (s.toList.take n)

/-- Scalar branch of `getValues`: stringify, apply a prefix modifier when
one is present and is not `*`, then encode (with the key for `;`/`&`/`?`
operators). -/
def scalarValue (op key : String) (modifier : Option String) (s : String) : String :=
  let stringValue :=
    match modifier with
    | some m => if m ≠ "" && m ≠ "*" then strTake s (parseIntDigits m) else s
    | none => s
  encodeValue op stringValue (if isKeyOperator op then some key else none)

/-- The `getValues` helper of `src/src/utils/index.ts`, translated
branch-for-branch.  Note the explode (`modifier === "*"`) branch is dead
in this implementation because the variable-spec pattern
`([^:*]*)(?::(\d+)|\*)?` only ever captures digit modifiers; it is
translated regardless. -/
def getValues (context : Context) (op key : String) (modifier : Option String) : List String :=
  let value := ctxGet context key
  if isDefinedJS value && !isEmptyStringJS value then
    match value with
    | .str s => [scalarValue op key modifier s]
    | .num n => [scalarValue op key modifier (jsNumToString n)]
    | .bool b => [scalarValue op key modifier (if b then "true" else "false")]
    | v =>
        if modifier = some "*" then
          match v with
          | .arr elems =>
              (elems.filter isDefinedJS).map (fun item =>
                encodeValue op (jsStringCoerce item)
                  (if isKeyOperator op then some key else none))
          | .obj fields =>
              fields.foldr (fun f acc =>
                if isDefinedJS f.2 then
                  encodeValue op (jsStringCoerce f.2) (some f.1) :: acc
                else acc) []
          | _ => []
        else
          let tmp : List String :=
            match v with
            | .arr elems =>
                (elems.filter isDefinedJS).map (fun item =>
                  encodeValue op (jsStringCoerce item) none)
            | .obj fields =>
                fields.foldr (fun f acc =>
                  if isDefinedJS f.2 then
                    encodeUnreserved f.1 :: encodeValue op (jsStringCoerce f.2) none :: acc
                  else acc) []
            | _ => []
          if isKeyOperator op then
            [encodeUnreserved key ++ "=" ++ String.intercalate "," tmp]
          else if tmp ≠ [] then [String.intercalate "," tmp]
          else []
  else
    if op = ";" && isDefinedJS value then [encodeUnreserved key]
    else if isEmptyStringJS value && (op = "&" || op = "?") then
      [encodeUnreserved key ++ "="]
    else if isEmptyStringJS value then [""]
    else []

/-- A parsed variable spec: the name before any `:` or `*`, and the digit
modifier captured by `(?::(\d+)|\*)?` (the explode `*` leaves the capture
group, and hence the modifier, undefined). -/
structure VarSpec where
  name : List Char
  modifier : Option (List Char)

/-- Apply the variable-spec pattern `([^:*]*)(?::(\d+)|\*)?`. -/
def parseVarSpec (v : List Char) : VarSpec :=
  let name := v.takeWhile (fun c => !(c == ':') && !(c == '*'))
  let rest := v.drop name.length
  match rest with
  | ':' :: ds =>
      let digits := ds.takeWhile Char.isDigit
      if digits = [] then ⟨name, none⟩ else ⟨name, some digits⟩
  | _ => ⟨name, none⟩

/-- Split a character list on a separator, JavaScript `split` style
(an empty input yields one empty group). -/
def splitOnChar (sep : Char) (cs : List Char) : List (List Char) :=
  cs.foldr (fun c acc =>
    match acc with
    | [] => if c = sep then [[], []] else [[c]]
    | g :: gs => if c = sep then [] :: g :: gs else (c :: g) :: gs) [[]]

/-- Expand one `{...}` expression against the context, following the
replacement callback of `parseTemplate`. -/
def expandExpression (context : Context) (e : List Char) : String :=
  let opSplit : String × List Char :=
    match e with
    | c :: rest =>
        if templateOperators.contains c then (String.singleton c, rest) else ("", e)
    | [] => ("", [])
  let op := opSplit.1
  let values : List String :=
    (splitOnChar ',' opSplit.2).foldr (fun v acc =>
      let sp := parseVarSpec v
      getValues context op (String.mk sp.name) (sp.modifier.map String.mk) ++ acc) []
  let separator :=
    if op = ";" || op = "&" || op = "?" then op
    else if op = "#" then "#"
    else ","
  (if values.length > 0 then op else "") ++ String.intercalate separator values

/-- Tokens of the template scanner `/\{([^{}]+)\}|([^{}]+)/g`: a braced
expression, a literal run, or a single unmatched character that the
replacement leaves untouched. -/
inductive UrlTok where
  | expr (e : List Char)
  | lit (l : List Char)
  | raw (c : Char)

/-- Scan a template into tokens (fuel-bounded; each step consumes at
least one character, so `length + 1` fuel always suffices). -/
def tokenizeTemplate : Nat → List Char → List UrlTok
  | 0, _ => []
  | _, [] => []
  | fuel + 1, c :: rest =>
      if c = Char.ofNat 123 then
        let inner := rest.takeWhile (fun d => !(d == Char.ofNat 123) && !(d == Char.ofNat 125))
        match rest.drop inner.length with
        | d :: tail =>
            if d = Char.ofNat 125 && inner ≠ [] then
              .expr inner :: tokenizeTemplate fuel tail
            else .raw c :: tokenizeTemplate fuel rest
        | [] => .raw c :: tokenizeTemplate fuel rest
      else if c = Char.ofNat 125 then .raw c :: tokenizeTemplate fuel rest
      else
        let l := (c :: rest).takeWhile
          (fun d => !(d == Char.ofNat 123) && !(d == Char.ofNat 125))
        .lit l :: tokenizeTemplate fuel ((c :: rest).drop l.length)

/-- The `expand` closure produced by `parseTemplate`: replace each
expression token via `expandExpression` and `encodeReserved` each literal
run. -/
def expandTemplate (template : String) (context : Context) : String :=
  String.join ((tokenizeTemplate (template.length + 1) template.toList).map (fun t =>
    match t with
    | .expr e => expandExpression context e
    | .lit l => encodeReserved (String.mk l)
    | .raw c => String.singleton c))

/-- The value `parseTemplate` returns: an object with a single `expand`
method closing over the template string. -/
structure Template where
  expand : Context → String

/-- `parseTemplate` of `src/src/utils/index.ts`. -/
def parseTemplate (template : String) : Template :=
  ⟨fun context => expandTemplate template context⟩

/-- Association lookup in the memoizer's cache (`Map.has`/`Map.get`). -/
def cacheFind (cache : List (String × Template)) (key : String) : Option Template :=
  match cache with
  | [] => none
  | e :: rest => if e.1 = key then some e.2 else cacheFind rest key

/-- Result of one call through `memoize(fn)`: the returned value, the
cache state afterwards, and whether `fn` was actually invoked. -/
structure MemoResult where
  value : Template
  cache : List (String × Template)
  invokedFn : Bool

/-- One call through the closure returned by `memoize` in
`src/src/utils/index.ts`, with the module-level `Map` made explicit:
a cache hit returns the stored value without invoking `fn`; a miss
invokes `fn`, stores the result and returns it. -/
def memoCall (fn : String → Template) (cache : List (String × Template))
    (key : String) : MemoResult :=
  match cacheFind cache key with
  | some v => ⟨v, cache, false⟩
  | none =>
      let val := fn key
      ⟨val, (key, val) :: cache, true⟩

/-- `parseUrlTemplate`, the memoized `parseTemplate` of
`src/src/utils/index.ts` (the process-wide cache is threaded
explicitly). -/
def parseUrlTemplateCall (cache : List (String × Template)) (pathTemplate : String) :
    MemoResult :=
  memoCall parseTemplate cache pathTemplate

/-- The `TimeoutEvent` union of the error module. -/
inductive TimeoutEvent where
  | request
  | response
  | read
  | socket
  | lookup
  | connect
deriving DecidableEq

/-- Model of the JavaScript `Error` values that flow through `request`'s
catch block.  The first eight constructors are the classes of the error
module in `src/src/index.ts` (`MaxRedirectsError` is modelled from the
declaration file of the sibling variant, the only place the repository
declares it; the shipped error module does not define it).
`timeoutError`'s event is optional because the one construction site,
`new TimeoutError(error.message)`, omits the argument the class declares.
`domException`, `typeError`, `genericError`, `syntaxError` model host
errors (`DOMException` is an `Error` subclass in the target runtime);
`nonError` models a thrown non-`Error` value. -/
inductive JSError where
  | requestError (message : String) (method : Option String) (url : Option String)
  | readError (message : String)
  | parseError (message : String) (statusCode : Nat) (statusMessage : String)
  | httpError (statusCode : Nat) (statusMessage : String) (body : JSValue) (message : String)
  | maxRedirectsError (message : String) (statusCode : Nat) (statusMessage : String)
      (redirectUrls : List String)
  | unsupportedProtocolError (message : String)
  | cancelError (message : String)
  | timeoutError (message : String) (event : Option TimeoutEvent)
  | domException (name : String) (message : String)
  | typeError (message : String) (cause : Option JSError)
  | genericError (message : String) (cause : Option JSError)
  | syntaxError (message : String)
  | nonError (value : JSValue)

/-- The `name` property of each modelled error. -/
def errName : JSError → String
  | .requestError .. => "RequestError"
  | .readError .. => "ReadError"
  | .parseError .. => "ParseError"
  | .httpError .. => "HTTPError"
  | .maxRedirectsError .. => "MaxRedirectsError"
  | .unsupportedProtocolError .. => "UnsupportedProtocolError"
  | .cancelError .. => "CancelError"
  | .timeoutError .. => "TimeoutError"
  | .domException name _ => name
  | .typeError .. => "TypeError"
  | .genericError .. => "Error"
  | .syntaxError .. => "SyntaxError"
  | .nonError _ => ""

/-- The `message` property of each modelled error. -/
def errMessage : JSError → String
  | .requestError m _ _ => m
  | .readError m => m
  | .parseError m _ _ => m
  | .httpError _ _ _ m => m
  | .maxRedirectsError m _ _ _ => m
  | .unsupportedProtocolError m => m
  | .cancelError m => m
  | .timeoutError m _ => m
  | .domException _ m => m
  | .typeError m _ => m
  | .genericError m _ => m
  | .syntaxError m => m
  | .nonError v => jsStringCoerce v

/-- `instanceof Error`: everything but a thrown non-`Error` value
(`DOMException` subclasses `Error` in the target runtime). -/
def isErrorInstance : JSError → Bool
  | .nonError _ => false
  | _ => true

/-- The `cause` property (`undefined` on the taxonomy classes, which never
set it). -/
def errCause : JSError → Option JSError
  | .typeError _ cause => cause
  | .genericError _ cause => cause
  | _ => none

/-- `Error.prototype.toString()`: `name` when the message is empty,
otherwise `name: message`. -/
def errToString (e : JSError) : String :=
  if errMessage e = "" then errName e else errName e ++ ": " ++ errMessage e

/-- Membership in the closed taxonomy the specification names for the
error hook: `UnsupportedProtocolError`, `HTTPError`, `ParseError`,
`MaxRedirectsError`, `TimeoutError`, `RequestError`, `ReadError`. -/
def errIsClaimTaxonomy : JSError → Bool
  | .requestError .. => true
  | .readError .. => true
  | .parseError .. => true
  | .httpError .. => true
  | .maxRedirectsError .. => true
  | .unsupportedProtocolError .. => true
  | .timeoutError .. => true
  | _ => false

/-- `instanceof HTTPError`. -/
def isHTTPErrorErr : JSError → Bool
  | .httpError .. => true
  | _ => false

/-- `instanceof ParseError`. -/
def isParseErrorErr : JSError → Bool
  | .parseError .. => true
  | _ => false

/-- `error instanceof DOMException && error.name === "TimeoutError"`. -/
def isTimeoutDOMException : JSError → Bool
  | .domException name _ => name = "TimeoutError"
  | _ => false

/-- `error instanceof TypeError && error.cause instanceof Error`:
the cause, when that guard passes. -/
def typeErrorErrorCause : JSError → Option JSError
  | .typeError _ (some c) => if isErrorInstance c then some c else none
  | _ => none

/-- Substring test (JavaScript `String.prototype.includes`). -/
def charsStartWith : List Char → List Char → Bool
  | [], _ => true
  | _ :: _, [] => false
  | p :: ps, c :: cs => p = c && charsStartWith ps cs

/-- Substring containment scan. -/
def charsContain (pat : List Char) : List Char → Bool
  | [] => charsStartWith pat []
  | c :: cs => charsStartWith pat (c :: cs) || charsContain pat cs

/-- JavaScript `s.includes(pat)`. -/
def strIncludes (s pat : String) : Bool :=
  charsContain pat.toList s.toList

/-- `error.cause?.toString()?.includes(pat)` as used in the catch block
(an absent cause makes the whole optional chain falsy). -/
def causeIncludes (e : JSError) (pat : String) : Bool :=
  match errCause e with
  | some c => strIncludes (errToString c) pat
  | none => false

/-- Scheme check for the WHATWG `URL` parse: a letter followed by
letters, digits, `+`, `-` or `.`. -/
def validSchemeChars : List Char → Bool
  | [] => false
  | c :: rest => c.isAlpha && rest.all (fun d => d.isAlphanum || d == '+' || d == '-' || d == '.')

/-- Model of `new URL(u).protocol`: the lowercased scheme up to and
including the colon, or `none` when `new URL` would throw a
`TypeError`. -/
def urlProtocol (u : String) : Option String :=
  let cs := u.toList
  let scheme := cs.takeWhile (fun c => !(c == ':'))
  if scheme.length = cs.length then none
  else if validSchemeChars scheme then
    some (String.mk (scheme.map Char.toLower) ++ ":")
  else none

/-- Model of the origin `scheme://host[:port]` of an absolute http(s)
URL, used to resolve path-absolute references. -/
def urlOrigin (base : String) : String :=
  let cs := base.toList
  let scheme := cs.takeWhile (fun c => !(c == ':'))
  let afterScheme := (cs.drop scheme.length).drop 3
  let host := afterScheme.takeWhile (fun c => !(c == '/'))
  String.mk scheme ++ "://" ++ String.mk host

/-- Model of `new URL(rel, base).toString()` adequate for the absolute
and origin-relative references exercised here: an absolute `rel` is taken
as-is, otherwise `rel` is resolved against the origin of `base` (the
claims below never depend on dot-segment or path-merge details). -/
def resolveURL (rel base : String) : String :=
  if rel.startsWith "http://" || rel.startsWith "https://" then rel
  else if rel.startsWith "/" then urlOrigin base ++ rel
  else urlOrigin base ++ "/" ++ rel

/-- The supported protocols list of the `HTTPClient` constructor. -/
def supportedProtocols : List String := ["http:", "https:"]

/-- Client configuration stored by the constructor. -/
structure ClientCfg where
  baseUrl : String
  headers : List (String × String)
  maxRedirects : Nat

/-- The `HTTPClient` constructor of `src/src/index.ts`: parse the base
URL (a `TypeError` when unparseable), reject any scheme outside http(s)
with `UnsupportedProtocolError`, otherwise store `baseUrl`, `headers` and
`maxRedirects` (default 5). -/
def mkHTTPClient (baseUrl : String) (headers : List (String × String))
    (maxRedirects : Option Nat) : Except JSError ClientCfg :=
  match urlProtocol baseUrl with
  | none => .error (.typeError "Invalid URL" none)
  | some p =>
      if supportedProtocols.contains p then
        .ok ⟨baseUrl, headers, maxRedirects.getD 5⟩
      else
        .error (.unsupportedProtocolError ("Unsupported protocol: " ++ baseUrl))

/-- The slice of a fetch `Response` this client reads: status, status
text, the `content-type` header, whether the body stream is non-null, and
the body text.  The `Location` header is carried to model redirect
responses, though `request` never reads it. -/
structure Response where
  status : Nat
  statusText : String
  contentTypeHeader : Option String
  bodyStream : Bool
  bodyText : String
  locationHeader : Option String

/-- `response.ok`: status in [200, 300). -/
def respOk (r : Response) : Bool :=
  200 ≤ r.status && r.status < 300

/-- `response.headers.get("content-type")?.includes("application/json")`. -/
def contentTypeIncludesJson (r : Response) : Bool :=
  match r.contentTypeHeader with
  | some ct => strIncludes ct "application/json"
  | none => false

/-- The `RequestInit` fields this client constructs or merges; `none`
models an absent key. -/
structure RequestInit where
  method : Option String
  headers : Option (List (String × String))
  body : Option String
  redirect : Option String

/-- `{ ...defaultOptions, ...options }` with `options` possibly absent:
a key present in `options` wins. -/
def mergeInit (defaults : RequestInit) (options : Option RequestInit) : RequestInit :=
  match options with
  | none => defaults
  | some o =>
      { method := match o.method with | some m => some m | none => defaults.method
        headers := match o.headers with | some h => some h | none => defaults.headers
        body := match o.body with | some b => some b | none => defaults.body
        redirect := match o.redirect with | some r => some r | none => defaults.redirect }

/-- The `defaultOptions` object of `request` (lines 262-270): uppercased
method, `Content-Type: application/json` merged under the client headers,
the JSON-serialized body only when the `body` argument is truthy, and
`redirect: "follow"`. -/
def defaultOptionsOf (cfg : ClientCfg) (method : String) (body : JSValue) : RequestInit :=
  { method := some method.toUpper
    headers := some (("Content-Type", "application/json") :: cfg.headers)
    body := if jsTruthy body then some (jsonStringify body) else none
    redirect := some "follow" }

/-- `parseResponseBody` (lines 361-378): structured JSON parse when the
content type declares JSON and a body stream exists, raising `ParseError`
on invalid JSON; plain text otherwise. -/
def parseResponseBody (r : Response) : Except JSError JSValue :=
  if contentTypeIncludesJson r && r.bodyStream then
    match jsonParse r.bodyText with
    | some v => .ok v
    | none => .error (.parseError "Failed to parse JSON response" r.status r.statusText)
  else .ok (.str r.bodyText)

/-- The message a `SyntaxError` from `response.json()` carries (the exact
text is engine-defined; only its identity as a `SyntaxError` matters). -/
def jsonSyntaxErrorMessage : String := "Unexpected token in JSON"

/-- The `errorBody` computation of the non-ok branch (lines 280-286):
`null` without a body stream, otherwise a JSON parse (whose `SyntaxError`
escapes unhandled) or the body text. -/
def errorBodyOf (r : Response) : Except JSError JSValue :=
  if r.bodyStream then
    if contentTypeIncludesJson r then
      match jsonParse r.bodyText with
      | some v => .ok v
      | none => .error (.syntaxError jsonSyntaxErrorMessage)
    else .ok (.str r.bodyText)
  else .ok .null

/-- `errorBody || response.statusText || "Request failed"`, the message
passed to the `HTTPError` constructor. -/
def httpErrMessage (errorBody : JSValue) (statusText : String) : String :=
  if jsTruthy errorBody then jsStringCoerce errorBody
  else if statusText ≠ "" then statusText
  else "Request failed"

/-- The `Result` object of `request`: status code, normalized body and
the `timings.phases.total` wall-clock figure. -/
structure Result where
  statusCode : Nat
  body : JSValue
  totalMs : Nat

/-- The body of the `try` block after the fetch resolved (lines 279-305):
non-ok responses raise `HTTPError` (or let the error-body `SyntaxError`
escape); ok responses parse the body, normalize `"" ` to `undefined` and
build the `Result`. -/
def tryBody (t0 t1 : Nat) (r : Response) : Except JSError Result :=
  if !(respOk r) then
    match errorBodyOf r with
    | .error e => .error e
    | .ok errorBody =>
        .error (.httpError r.status r.statusText errorBody
          (httpErrMessage errorBody r.statusText))
  else
    match parseResponseBody r with
    | .error e => .error e
    | .ok responseBody =>
        .ok { statusCode := r.status
              body := if isEmptyStringJS responseBody then .undefined else responseBody
              totalMs := t1 - t0 }

/-- The whole `try` block: a rejected fetch propagates its error to the
catch block unchanged. -/
def tryPhase (t0 t1 : Nat) : Except JSError Response → Except JSError Result
  | .error e => .error e
  | .ok r => tryBody t0 t1 r

/-- The catch block of `request` (lines 323-357), translated
branch-for-branch: non-`Error` values become a generic `Unknown error`;
`HTTPError`/`ParseError` pass unchanged; a `DOMException` named
`TimeoutError` becomes `TimeoutError` (with no event argument); a
`TypeError` whose cause is an `Error` is replaced by that raw cause; a
cause string mentioning `ENOTFOUND`/`ECONNREFUSED` becomes `RequestError`
tagged with method and url; anything else is delivered unchanged. -/
def classifyError (method url : String) (error : JSError) : JSError :=
  if !(isErrorInstance error) then .genericError "Unknown error" none
  else if isHTTPErrorErr error || isParseErrorErr error then error
  else if isTimeoutDOMException error then .timeoutError (errMessage error) none
  else
    match typeErrorErrorCause error with
    | some cause => cause
    | none =>
        if causeIncludes error "ENOTFOUND" || causeIncludes error "ECONNREFUSED" then
          .requestError (errMessage error) (some method) (some url)
        else error

/-- `result.statusCode || -1`: the falsy status 0 (and only it, for the
`Nat`-valued model) is replaced by the -1 sentinel. -/
def jsOrCode (statusCode : Nat) : Int :=
  if statusCode = 0 then -1 else statusCode

/-- One recorded interaction with the metric instruments: the value
observed on `request_duration_seconds`, the per-stage observations, and
the `code` label of the `requests_total` increment. -/
structure MetricsRecord where
  durationObservedMs : Nat
  stages : List (String × Nat)
  counterCode : Int

/-- Lines 385-386: `const stopTimer = requestDuration.startTimer();
stopTimer({...})`.  The two calls run back-to-back with no suspension
point between them, so in the explicit-clock model both read the same
instant and the observed elapsed time is their same-instant difference. -/
def requestDurationObservation (now : Nat) : Nat := now - now

/-- The `timings.phases` object carried by a `Result` (this
implementation only ever sets `total`). -/
def phasesOf (result : Result) : List (String × Nat) :=
  [("total", result.totalMs)]

/-- `recordMetrics` (lines 380-408): start and immediately stop a
duration timer, observe every numeric phase except `total` on the stage
histogram, and increment the request counter with
`code = result.statusCode || -1`. -/
def recordMetrics (result : Result) (now : Nat) : MetricsRecord :=
  { durationObservedMs := requestDurationObservation now
    stages := (phasesOf result).filter (fun p => !(p.1 == "total"))
    counterCode := jsOrCode result.statusCode }

/-- Outcome of the single `fetch` call: how many transport-level
exchanges it performed internally (several, when it follows redirects
natively) and its resolved response or rejection error. -/
structure FetchOutcome where
  attempts : Nat
  result : Except JSError Response

/-- Everything observable about one logical `request()` call under the
default hooks: the `fetch` invocations made (url and options), the total
transport exchanges, the metric interactions, and the value delivered to
`_handlerResponse` (`ok`) or `_handlerError` (`error`; the default hook
rethrows it). -/
structure RequestOutcome where
  fetchCalls : List (String × RequestInit)
  attempts : Nat
  metrics : List MetricsRecord
  outcome : Except JSError Result

/-- The absolute URL of the call:
`new URL(parseUrlTemplate(pathTemplate).expand(params), this.baseUrl)`. -/
def requestUrl (cfg : ClientCfg) (pathTemplate : String) (params : Context) : String :=
  resolveURL (expandTemplate pathTemplate params) cfg.baseUrl

/-- The `Result` handed to `recordMetrics`: the success `Result` on the
try path, the `{ statusCode: 0, timings }` object built in the catch
block on the failure path. -/
def metricsResultOf (t0 t1 : Nat) : Except JSError Result → Result
  | .ok result => result
  | .error _ => { statusCode := 0, body := .undefined, totalMs := t1 - t0 }

/-- Failure delivery: the catch block classifies the caught error before
handing it to `_handlerError`. -/
def deliverOutcome (method url : String) : Except JSError Result → Except JSError Result
  | .ok result => .ok result
  | .error e => .error (classifyError method url e)

/-- One logical `request(method, pathTemplate, params, body, options)`
call of `src/src/index.ts` (lines 250-359) under the default hooks.  The
single `fetch` suspension is the `fetchImpl` parameter; `t0` is the
`performance.now()` reading before the fetch and `t1` the one after it
(the catch block's own reading coincides with `t1` because everything
after the fetch is synchronous).  In every control path the code makes
exactly one `fetch` call and exactly one `recordMetrics` call, which the
uniform record below reflects. -/
def requestRun (cfg : ClientCfg) (method : String) (pathTemplate : String)
    (params : Context) (body : JSValue) (options : Option RequestInit)
    (fetchImpl : String → RequestInit → FetchOutcome) (t0 t1 : Nat) : RequestOutcome :=
  let url := requestUrl cfg pathTemplate params
  let fetchOptions := mergeInit (defaultOptionsOf cfg method body) options
  let out := fetchImpl url fetchOptions
  let tryRes := tryPhase t0 t1 out.result
  { fetchCalls := [(url, fetchOptions)]
    attempts := out.attempts
    metrics := [recordMetrics (metricsResultOf t0 t1 tryRes) t1]
    outcome := deliverOutcome method url tryRes }

/-- A transport that resolves every exchange with the same response. -/
def constFetch (r : Response) : String → RequestInit → FetchOutcome :=
  fun _ _ => ⟨1, .ok r⟩

/-- A transport whose single exchange rejects with the given error. -/
def rejectFetch (e : JSError) : String → RequestInit → FetchOutcome :=
  fun _ _ => ⟨1, .error e⟩

/-- Modelled from the spec: the transport boundary (the injected
fetch-style primitive of spec section 6) facing a server that answers
every exchange with `301 Location: /redirect-loop`.  Under
`redirect: "follow"` the transport follows redirects itself up to its own
fixed budget of 20 hops (21 exchanges) and then rejects with a
`TypeError` whose cause is a plain `Error` reading
`redirect count exceeded` — the exact failure the repository's own test
observes.  Without `redirect: "follow"` the first 301 response is
returned as-is. -/
def alwaysRedirectFetch : String → RequestInit → FetchOutcome :=
  fun _ opts =>
    if opts.redirect = some "follow" then
      ⟨21, .error (.typeError "fetch failed"
        (some (.genericError "redirect count exceeded" none)))⟩
    else
      ⟨1, .ok { status := 301
                statusText := "Moved Permanently"
                contentTypeHeader := none
                bodyStream := false
                bodyText := ""
                locationHeader := some "/redirect-loop" }⟩

/-- The `requests_total` code label implied by the delivered outcome:
the response status on success, the -1 sentinel on failure. -/
def codeOfOutcome : Except JSError Result → Int
  | .ok result => result.statusCode
  | .error _ => -1

/-- Is the delivered failure a `MaxRedirectsError`? -/
def outcomeIsMaxRedirects : Except JSError Result → Bool
  | .error (.maxRedirectsError ..) => true
  | _ => false

/-- The error delivered to `_handlerError`, when the call failed. -/
def deliveredError (run : RequestOutcome) : Option JSError :=
  match run.outcome with
  | .error e => some e
  | .ok _ => none

/-- The `event` field of a delivered `TimeoutError`. -/
def timeoutEventOf : JSError → Option (Option TimeoutEvent)
  | .timeoutError _ event => some event
  | _ => none

/-- A client built like the test fixture: local base URL, one header. -/
def cfgStd : ClientCfg :=
  ⟨"http://localhost:4000", [("Authorization", "Bearer token")], 5⟩

/-- The redirect-loop client of the repository's test: `maxRedirects: 2`. -/
def cfgRedirect : ClientCfg :=
  ⟨"http://localhost:4000", [("Authorization", "Bearer token")], 2⟩

/-- A 200 response with a JSON user payload. -/
def response200 : Response :=
  { status := 200
    statusText := "OK"
    contentTypeHeader := some "application/json"
    bodyStream := true
    bodyText := "\x7b\"id\":\"123\",\"name\":\"John Doe\"\x7d"
    locationHeader := none }

/-- A 404 response with a JSON error payload. -/
def response404 : Response :=
  { status := 404
    statusText := "Not Found"
    contentTypeHeader := some "application/json"
    bodyStream := true
    bodyText := "\x7b\"error\":\"User not found\"\x7d"
    locationHeader := none }

/-- A 404 response declaring JSON whose body is not valid JSON. -/
def response404BadJson : Response :=
  { status := 404
    statusText := "Not Found"
    contentTypeHeader := some "application/json"
    bodyStream := true
    bodyText := "Invalid JSON"
    locationHeader := none }

/-- A 200 response declaring JSON whose body is not valid JSON
(the `/invalid-json` endpoint of the repository's test server). -/
def response200BadJson : Response :=
  { status := 200
    statusText := "OK"
    contentTypeHeader := some "application/json"
    bodyStream := true
    bodyText := "Invalid JSON"
    locationHeader := none }

/-- A 204 response with no body. -/
def response204 : Response :=
  { status := 204
    statusText := "No Content"
    contentTypeHeader := none
    bodyStream := false
    bodyText := ""
    locationHeader := none }

/-- The rejection an aborted fetch produces under a timed-out signal:
a `DOMException` named `TimeoutError`. -/
def timeoutAbortError : JSError :=
  .domException "TimeoutError" "The operation was aborted due to timeout"

/-- The rejection an unresolvable host produces: a `TypeError` reading
`fetch failed` whose cause is the system `Error`. -/
def enotfoundError : JSError :=
  .typeError "fetch failed"
    (some (.genericError "getaddrinfo ENOTFOUND invalid.url" none))

/-- C5: constructing a client whose parseable base URL has a scheme other
than http/https fails synchronously with `UnsupportedProtocolError`
(before any network activity: the constructor is a pure function); for
http/https schemes construction succeeds and stores `baseUrl`, `headers`
and `maxRedirects` (defaulting to 5) unchanged. -/
theorem c5_constructor_protocol (baseUrl : String) (headers : List (String × String))
    (mr : Option Nat) (p : String) (hp : urlProtocol baseUrl = some p) :
    mkHTTPClient baseUrl headers mr =
      (if supportedProtocols.contains p then
        .ok ⟨baseUrl, headers, mr.getD 5⟩
      else
        .error (.unsupportedProtocolError ("Unsupported protocol: " ++ baseUrl))) := by
  unfold mkHTTPClient
  rw [hp]

/-- Witness for C5: an `ftp:` base URL is rejected with
`UnsupportedProtocolError`, and an `http:` one stores the configuration
unchanged. -/
theorem c5_constructor_protocol_witness :
    mkHTTPClient "ftp://localhost" [("Authorization", "Bearer token")] none =
      .error (.unsupportedProtocolError "Unsupported protocol: ftp://localhost") ∧
    mkHTTPClient "http://localhost:4000" [("Authorization", "Bearer token")] (some 2) =
      .ok ⟨"http://localhost:4000", [("Authorization", "Bearer token")], 2⟩ := by
  constructor
  · rw [c5_constructor_protocol "ftp://localhost" [("Authorization", "Bearer token")] none
      "ftp:" rfl]
    rfl
  · rw [c5_constructor_protocol "http://localhost:4000" [("Authorization", "Bearer token")]
      (some 2) "http:" rfl]
    rfl

/-- C6: a successful 2xx response whose parsed body is exactly the empty
string yields a `Result` whose `body` is `undefined`. -/
theorem c6_empty_body_undefined (cfg : ClientCfg) (method pathTemplate : String)
    (params : Context) (options : Option RequestInit) (t0 t1 : Nat) (r : Response)
    (hok : respOk r = true) (hparse : parseResponseBody r = .ok (.str "")) :
    (requestRun cfg method pathTemplate params .undefined options (constFetch r) t0 t1).outcome =
      .ok { statusCode := r.status, body := .undefined, totalMs := t1 - t0 } := by
  unfold requestRun deliverOutcome tryPhase constFetch tryBody
  simp [hok, hparse, isEmptyStringJS]

/-- Witness for C6: a 204 No Content response produces
`Result.body = undefined`. -/
theorem c6_empty_body_undefined_witness :
    (requestRun cfgStd "DELETE" "/users/\x7bid\x7d" [("id", .str "123")] .undefined none
        (constFetch response204) 0 40).outcome =
      .ok { statusCode := 204, body := .undefined, totalMs := 40 } := by
  have h := c6_empty_body_undefined cfgStd "DELETE" "/users/\x7bid\x7d"
    [("id", .str "123")] none 0 40 response204 rfl rfl
  simpa using h

/-- C7: expansion through the memoized `parseUrlTemplate` is
deterministic — a second call with the same template string is a cache
hit that returns the stored expander without reparsing, and expanding it
against the same parameters yields the identical string. -/
theorem c7_parse_memoized_deterministic (cache : List (String × Template))
    (T : String) (P : Context) :
    (parseUrlTemplateCall (parseUrlTemplateCall cache T).cache T).value =
        (parseUrlTemplateCall cache T).value ∧
    (parseUrlTemplateCall (parseUrlTemplateCall cache T).cache T).invokedFn = false ∧
    (parseUrlTemplateCall cache T).value.expand P =
        (parseUrlTemplateCall (parseUrlTemplateCall cache T).cache T).value.expand P := by
  unfold parseUrlTemplateCall memoCall
  cases h : cacheFind cache T with
  | some v => simp [h]
  | none => simp [h, cacheFind]

/-- C1 (amended): `maxRedirects` is stored by the constructor but never
read by `request()`: the outcome of a logical call is independent of it,
exactly one `fetch` call is issued per logical call, and that call
delegates redirect handling to the transport via `redirect: "follow"`
(so no client-side redirect budget is consumed and no
`MaxRedirectsError` is ever constructed). -/
theorem c1_amended_maxRedirects_inert (baseUrl : String)
    (headers : List (String × String)) (a b : Nat) (method pathTemplate : String)
    (params : Context) (body : JSValue) (options : Option RequestInit)
    (fetchImpl : String → RequestInit → FetchOutcome) (t0 t1 : Nat) :
    requestRun ⟨baseUrl, headers, a⟩ method pathTemplate params body options fetchImpl t0 t1 =
      requestRun ⟨baseUrl, headers, b⟩ method pathTemplate params body options fetchImpl t0 t1 ∧
    (requestRun ⟨baseUrl, headers, a⟩ method pathTemplate params body options fetchImpl
        t0 t1).fetchCalls.length = 1 ∧
    (requestRun ⟨baseUrl, headers, a⟩ method pathTemplate params body none fetchImpl
        t0 t1).fetchCalls.map (fun c => c.2.redirect) = [some "follow"] :=
  ⟨rfl, rfl, rfl⟩

/-- Counterexample for C1: with `maxRedirects = 2` and a server that
always redirects, the transport performs 21 exchanges (its own native
budget), not the 3 the claim predicts, and the delivered failure is the
transport's raw `redirect count exceeded` cause, not a
`MaxRedirectsError`. -/
theorem c1_counterexample :
    (requestRun cfgRedirect "GET" "/redirect-loop" [] .undefined none alwaysRedirectFetch
        0 5).attempts = 21 ∧
    ¬ (requestRun cfgRedirect "GET" "/redirect-loop" [] .undefined none alwaysRedirectFetch
        0 5).attempts = 2 + 1 ∧
    (requestRun cfgRedirect "GET" "/redirect-loop" [] .undefined none alwaysRedirectFetch
        0 5).outcome = .error (.genericError "redirect count exceeded" none) ∧
    outcomeIsMaxRedirects (requestRun cfgRedirect "GET" "/redirect-loop" [] .undefined none
        alwaysRedirectFetch 0 5).outcome = false := by
  refine ⟨rfl, by decide, rfl, rfl⟩

/-- Helper: when the `TypeError`-with-`Error`-cause guard fires, the
value it returns is the error's own `cause`. -/
theorem errCause_of_typeGuard {e c : JSError} (h : typeErrorErrorCause e = some c) :
    errCause e = some c := by
  cases e <;> simp only [typeErrorErrorCause] at h <;> try exact Option.noConfusion h
  case typeError m cause =>
    cases cause with
    | none => exact Option.noConfusion h
    | some c2 =>
      by_cases hc : isErrorInstance c2 = true
      · simp only [hc, if_true] at h
        simpa [errCause] using h
      · simp only [hc] at h
        simp at h

/-- C2 (amended): the catch block classifies `HTTPError`, `ParseError`,
timeout aborts and `ENOTFOUND`/`ECONNREFUSED` causes into taxonomy
kinds, but it does not close the taxonomy: a `TypeError` whose cause is
an `Error` delivers that raw cause to the error hook, and any other
unrecognised error is delivered unchanged (a non-`Error` throw becomes a
generic `Unknown error`). -/
theorem c2_amended_classification (method url : String) (e : JSError) :
    errIsClaimTaxonomy (classifyError method url e) = true ∨
    classifyError method url e = e ∨
    errCause e = some (classifyError method url e) ∨
    classifyError method url e = .genericError "Unknown error" none := by
  unfold classifyError
  split
  · exact Or.inr (Or.inr (Or.inr rfl))
  · split
    · exact Or.inr (Or.inl rfl)
    · split
      · next h1 h2 h3 =>
        refine Or.inl ?_
        cases e <;> simp [errIsClaimTaxonomy]
      · cases hg : typeErrorErrorCause e with
        | some cause =>
            simp only [hg]
            exact Or.inr (Or.inr (Or.inl (errCause_of_typeGuard hg)))
        | none =>
            simp only [hg]
            split
            · exact Or.inl rfl
            · exact Or.inr (Or.inl rfl)

/-- Counterexample for C2: a fetch rejection `TypeError: fetch failed`
whose cause is the system error `getaddrinfo ENOTFOUND invalid.url`
delivers that raw cause — a plain `Error`, not one of the seven taxonomy
kinds — to the error hook. -/
theorem c2_counterexample :
    deliveredError (requestRun cfgStd "GET" "/invalid/path" [] .undefined none
        (rejectFetch enotfoundError) 0 5) =
      some (.genericError "getaddrinfo ENOTFOUND invalid.url" none) ∧
    (deliveredError (requestRun cfgStd "GET" "/invalid/path" [] .undefined none
        (rejectFetch enotfoundError) 0 5)).map errIsClaimTaxonomy = some false :=
  ⟨rfl, rfl⟩

/-- C3 (amended): when the transport call rejects because a
caller-supplied abort signal timed out (the client itself configures no
deadline — there is no `requestTimeoutMs` option), the call fails with a
`TimeoutError`, but its `event` field is left unset: the catch block
constructs `TimeoutError` without the event argument its class
declares. -/
theorem c3_amended_timeout_event_unset (cfg : ClientCfg) (method pathTemplate : String)
    (params : Context) (body : JSValue) (options : Option RequestInit) (t0 t1 : Nat)
    (msg : String) :
    (requestRun cfg method pathTemplate params body options
        (rejectFetch (.domException "TimeoutError" msg)) t0 t1).outcome =
      .error (.timeoutError msg none) := rfl

/-- Counterexample for C3: the timeout failure delivered for an aborted
exchange carries `event = none`, not the `event = "request"` the claim
requires. -/
theorem c3_counterexample :
    (requestRun cfgStd "GET" "/slow" [] .undefined none (rejectFetch timeoutAbortError)
        0 100).outcome =
      .error (.timeoutError "The operation was aborted due to timeout" none) ∧
    ¬ (requestRun cfgStd "GET" "/slow" [] .undefined none (rejectFetch timeoutAbortError)
        0 100).outcome =
      .error (.timeoutError "The operation was aborted due to timeout"
        (some TimeoutEvent.request)) := by
  refine ⟨rfl, ?_⟩
  intro h
  have h2 := ((rfl : (requestRun cfgStd "GET" "/slow" [] .undefined none
    (rejectFetch timeoutAbortError) 0 100).outcome =
      .error (.timeoutError "The operation was aborted due to timeout" none)).symm.trans h)
  injection h2 with h3
  injection h3 with h4 h5
  exact Option.noConfusion h5

/-- C4 (amended): for 2xx responses whose content type includes
`application/json`, whose body stream is present and whose body text is
not valid JSON, `request()` fails with `ParseError` carrying the status
code and status message, never resolving with a partial or raw-text
value; for non-2xx responses the same condition instead lets the raw
JSON `SyntaxError` escape (see the counterexample). -/
theorem c4_amended_parse_error (cfg : ClientCfg) (method pathTemplate : String)
    (params : Context) (options : Option RequestInit) (t0 t1 : Nat) (r : Response)
    (hok : respOk r = true) (hjson : contentTypeIncludesJson r = true)
    (hstream : r.bodyStream = true) (hbad : jsonParse r.bodyText = none) :
    (requestRun cfg method pathTemplate params .undefined options (constFetch r) t0 t1).outcome =
      .error (.parseError "Failed to parse JSON response" r.status r.statusText) := by
  unfold requestRun deliverOutcome tryPhase constFetch tryBody parseResponseBody
  simp [hok, hjson, hstream, hbad, classifyError, isErrorInstance, isHTTPErrorErr,
    isParseErrorErr]

/-- Witness for C4: a 200 response declaring JSON with body text
`Invalid JSON` fails with `ParseError 200 OK`. -/
theorem c4_amended_parse_error_witness :
    (requestRun cfgStd "GET" "/invalid-json" [] .undefined none
        (constFetch response200BadJson) 0 5).outcome =
      .error (.parseError "Failed to parse JSON response" 200 "OK") := by
  have h := c4_amended_parse_error cfgStd "GET" "/invalid-json" [] none 0 5
    response200BadJson rfl rfl rfl rfl
  simpa using h

/-- Counterexample for C4: a 404 response declaring JSON whose body is
not valid JSON does not fail with `ParseError`: the unguarded
`response.json()` of the non-ok branch lets the raw `SyntaxError` reach
the error hook. -/
theorem c4_counterexample :
    (requestRun cfgStd "GET" "/users/\x7bid\x7d" [("id", .str "999")] .undefined none
        (constFetch response404BadJson) 0 5).outcome =
      .error (.syntaxError jsonSyntaxErrorMessage) ∧
    (deliveredError (requestRun cfgStd "GET" "/users/\x7bid\x7d" [("id", .str "999")]
        .undefined none (constFetch response404BadJson) 0 5)).map isParseErrorErr =
      some false :=
  ⟨rfl, rfl⟩

/-- Helper: a successful `tryPhase` result carries the (2xx) response
status, so its status code is at least 200. -/
theorem tryPhase_ok_status {t0 t1 : Nat} {res : Except JSError Response} {result : Result}
    (h : tryPhase t0 t1 res = .ok result) : 200 ≤ result.statusCode := by
  cases res with
  | error e => exact Except.noConfusion h
  | ok r =>
    simp only [tryPhase, tryBody] at h
    split at h
    · split at h <;> exact Except.noConfusion h
    · next hok =>
      split at h
      · exact Except.noConfusion h
      · injection h with h2
        have hok2 : respOk r = true := by
          cases hr : respOk r with
          | true => rfl
          | false => exact absurd (by simp [hr]) hok
        subst h2
        exact (Nat.le_of_eq rfl).trans (by
          have := (Bool.and_eq_true _ _).mp hok2
          exact Nat.le_of_ble_eq_true (by simpa using this.1))

/-- Helper: the counter code recorded for a try outcome matches the
delivered outcome — the response status on success, -1 on failure. -/
theorem metrics_code_matches (method url : String) (t0 t1 : Nat)
    (res : Except JSError Response) :
    jsOrCode (metricsResultOf t0 t1 (tryPhase t0 t1 res)).statusCode =
      codeOfOutcome (deliverOutcome method url (tryPhase t0 t1 res)) := by
  cases htr : tryPhase t0 t1 res with
  | error e => rfl
  | ok result =>
    have hs := tryPhase_ok_status htr
    simp only [metricsResultOf, deliverOutcome, codeOfOutcome, jsOrCode]
    rw [if_neg]
    omega

/-- C8 (amended): `requests_total` is incremented exactly once per
logical `request()` call (under the default hooks), and its `code` label
is the response status only when the call succeeds (a 2xx response); on
every failure — including protocol failures such as a 404, where a
response was received — the label is the -1 sentinel, because the catch
block rebuilds the result with `statusCode: 0` and `0 || -1` records
-1. -/
theorem c8_amended_counter_once (cfg : ClientCfg) (method pathTemplate : String)
    (params : Context) (body : JSValue) (options : Option RequestInit)
    (fetchImpl : String → RequestInit → FetchOutcome) (t0 t1 : Nat) :
    (requestRun cfg method pathTemplate params body options fetchImpl t0 t1).metrics.length
        = 1 ∧
    (requestRun cfg method pathTemplate params body options fetchImpl t0 t1).metrics.map
        (fun m => m.counterCode) =
      [codeOfOutcome (requestRun cfg method pathTemplate params body options fetchImpl
        t0 t1).outcome] := by
  refine ⟨rfl, ?_⟩
  exact congrArg (fun c => [c])
    (metrics_code_matches method (requestUrl cfg pathTemplate params) t0 t1
      (fetchImpl (requestUrl cfg pathTemplate params)
        (mergeInit (defaultOptionsOf cfg method body) options)).result)

/-- Counterexample for C8: a received 404 response is recorded with the
-1 sentinel code label, not 404, even though the response (status,
message and body) demonstrably reached the client. -/
theorem c8_counterexample :
    (requestRun cfgStd "GET" "/users/\x7bid\x7d" [("id", .str "999")] .undefined none
        (constFetch response404) 0 5).metrics.map (fun m => m.counterCode) = [(-1 : Int)] ∧
    (requestRun cfgStd "GET" "/users/\x7bid\x7d" [("id", .str "999")] .undefined none
        (constFetch response404) 0 5).outcome =
      .error (.httpError 404 "Not Found" (.obj [("error", .str "User not found")])
        "[object Object]") ∧
    (-1 : Int) ≠ 404 :=
  ⟨rfl, rfl, by decide⟩

/-- C9 (code bug): the `request_duration_seconds` histogram observes the
interval between a `startTimer()` and a `stopTimer()` issued
back-to-back inside `recordMetrics` after the call finished — zero in
the explicit-clock model — while the measured wall-clock total of the
logical call (here 100 ms, stored in `timings.phases.total`) is never
fed to that histogram. -/
theorem c9_duration_observed_zero :
    (requestRun cfgStd "GET" "/users/\x7bid\x7d" [("id", .str "123")] .undefined none
        (constFetch response200) 0 100).metrics.map (fun m => m.durationObservedMs) = [0] ∧
    (requestRun cfgStd "GET" "/users/\x7bid\x7d" [("id", .str "123")] .undefined none
        (constFetch response200) 0 100).outcome =
      .ok { statusCode := 200
            body := .obj [("id", .str "123"), ("name", .str "John Doe")]
            totalMs := 100 } ∧
    (0 : Nat) ≠ 100 :=
  ⟨rfl, rfl, by decide⟩

/-- C10: a falsy `body` argument (`undefined`, `null`, `0`, `""` or
`false`) is never JSON-serialized or sent: the call is indistinguishable
from one with the body omitted, and the fetch options carry no body. -/
theorem c10_falsy_body_omitted (cfg : ClientCfg) (method pathTemplate : String)
    (params : Context) (body : JSValue) (options : Option RequestInit)
    (fetchImpl : String → RequestInit → FetchOutcome) (t0 t1 : Nat)
    (h : jsTruthy body = false) :
    requestRun cfg method pathTemplate params body options fetchImpl t0 t1 =
      requestRun cfg method pathTemplate params .undefined options fetchImpl t0 t1 ∧
    (requestRun cfg method pathTemplate params body none fetchImpl t0 t1).fetchCalls.map
        (fun c => c.2.body) = [none] := by
  have hd : defaultOptionsOf cfg method body = defaultOptionsOf cfg method .undefined := by
    unfold defaultOptionsOf
    rw [h]
    rfl
  constructor
  · unfold requestRun
    rw [hd]
  · unfold requestRun
    simp [mergeInit, defaultOptionsOf, h]

/-- Witness for C10: `body = 0` (falsy yet JSON-serializable) behaves
exactly like an omitted body. -/
theorem c10_falsy_body_omitted_witness :
    jsTruthy (.num 0) = false ∧
    requestRun cfgStd "POST" "/users" [] (.num 0) none (constFetch response204) 0 5 =
      requestRun cfgStd "POST" "/users" [] .undefined none (constFetch response204) 0 5 := by
  refine ⟨rfl, ?_⟩
  exact (c10_falsy_body_omitted cfgStd "POST" "/users" [] (.num 0) none
    (constFetch response204) 0 5 rfl).1
